import Mathlib

set_option autoImplicit false

/-!
Verification development for the B-Roll Scout creative request aggregator
(service layer of the repository: searchBrollResources, getDeepAnalysis,
generateBrollVariations, generateBrollPreview, generateBrollVideo).

The TypeScript service functions are shallowly embedded: every backend
request is represented by an oracle describing the outcome the generative
backend would produce for that request, JavaScript truthiness and the
builtins used by the code (JSON.parse, new URL) are modelled explicitly as
functions or oracles, and promise combinators are modelled by their
value-level settlement semantics.
-/

/-- JavaScript `x || d` for an optional string `x`: `undefined` and the
empty string are falsy. -/
def jsOrString (x : Option String) (d : String) : String :=
  match x with
  | some s => if s = "" then d else s
  | none => d

/-- JavaScript `x || y` where both operands are possibly-undefined strings
(used for the thumbnail assignment `thumbnails[i % n] || thumbnails[0]`). -/
def jsOrOpt (x y : Option String) : Option String :=
  match x with
  | some s => if s = "" then y else some s
  | none => y

/-- JavaScript truthiness filter on an optional string: `undefined` and the
empty string become `none`. -/
def jsTruthy (x : Option String) : Option String :=
  match x with
  | some s => if s = "" then none else some s
  | none => none

/-- Drop everything from the first occurrence of `sep` (inclusive) to the
end; models the regex replaces `/ \| .*$/` and `/ - .*$/` with the empty
string on newline-free titles. -/
def dropFromFirst (sep : List Char) : List Char → List Char
  | [] => []
  | c :: cs => if sep.isPrefixOf (c :: cs) then [] else c :: dropFromFirst sep cs

/-- JavaScript `s.replace(pat, repl)` on plain-string patterns: replace the
first occurrence only. -/
def replaceFirstList (pat repl : List Char) : List Char → List Char
  | [] => []
  | c :: cs =>
    if pat.isPrefixOf (c :: cs) then repl ++ (c :: cs).drop pat.length
    else c :: replaceFirstList pat repl cs

/-- String wrapper for `replaceFirstList`. -/
def replaceFirstStr (pat repl s : String) : String :=
  ⟨replaceFirstList pat.data repl.data s.data⟩

/-- JavaScript `title.replace(/ \| .*$/, "").replace(/ - .*$/, "").substring(0, 40)`. -/
def clipTitle (title : String) : String :=
  ⟨(dropFromFirst (" - ").data (dropFromFirst (" | ").data title.data)).take 40⟩

/-- Substring containment over char lists (JavaScript `String.includes`). -/
def listContainsSub (pat : List Char) : List Char → Bool
  | [] => pat.isEmpty
  | c :: cs => pat.isPrefixOf (c :: cs) || listContainsSub pat cs

/-- JavaScript `s.includes(pat)`. -/
def strContains (s pat : String) : Bool :=
  listContainsSub pat.data s.data

/-- UTF-8 bytes of a single code point. -/
def utf8Bytes (c : Char) : List Nat :=
  let n := c.toNat
  if n < 128 then [n]
  else if n < 2048 then [192 + n / 64, 128 + n % 64]
  else if n < 65536 then [224 + n / 4096, 128 + (n / 64) % 64, 128 + n % 64]
  else [240 + n / 262144, 128 + (n / 4096) % 64, 128 + (n / 64) % 64, 128 + n % 64]

/-- Upper-case hexadecimal digit for a value below 16. -/
def hexDigitChar (n : Nat) : Char :=
  if n < 10 then Char.ofNat (48 + n) else Char.ofNat (55 + n)

/-- Characters that `encodeURIComponent` passes through unescaped. -/
def isUnreservedChar (c : Char) : Bool :=
  let n := c.toNat
  (48 ≤ n && n ≤ 57) || (65 ≤ n && n ≤ 90) || (97 ≤ n && n ≤ 122) ||
    (n = 45 || n = 95 || n = 46 || n = 33 || n = 126 || n = 42 || n = 39 || n = 40 || n = 41)

/-- Percent-encoding of one byte. -/
def pctByte (b : Nat) : List Char :=
  [Char.ofNat 37, hexDigitChar (b / 16), hexDigitChar (b % 16)]

/-- JavaScript `encodeURIComponent`. -/
def encodeURIComponent (s : String) : String :=
  ⟨(s.data.map fun c =>
      if isUnreservedChar c then [c] else ((utf8Bytes c).map pctByte).flatten).flatten⟩

/-! ## Data model (from the interfaces at the end of the source module) -/

/-- A web grounding chunk: `{ uri, title }`. -/
structure WebChunk where
  uri : String
  title : String
deriving DecidableEq, Repr

/-- A grounding chunk as returned in grounding metadata; only the `web`
variant is consumed by `searchBrollResources`. -/
structure GroundingChunk where
  web : Option WebChunk
  maps : Option WebChunk
deriving DecidableEq, Repr

/-- The grounded-search response that `searchBrollResources` consumes:
`response.text` (possibly absent) and
`response.candidates?.[0]?.groundingMetadata?.groundingChunks || []`. -/
structure SearchResponse where
  text : Option String
  chunks : List GroundingChunk
deriving DecidableEq, Repr

/-- An entry of the `sources` list: `{ title, url }`. -/
structure SourceEntry where
  title : String
  url : String
deriving DecidableEq, Repr

/-- `VibeMetadata` from the source. -/
structure VibeMetadata where
  palette : List String
  moods : List String
deriving DecidableEq, Repr

/-- `TechSpecs` from the source. -/
structure TechSpecs where
  lens : String
  lighting : String
  frameRate : String
  movement : String
deriving DecidableEq, Repr

/-- The light-role enum of `LightNode`. -/
inductive LightType where
  | key
  | fill
  | back
  | background
deriving DecidableEq, Repr

/-- `LightNode` from the source. -/
structure LightNode where
  type : LightType
  angle : Int
  distance : Int
  color : String
deriving DecidableEq, Repr

/-- `CameraSettings` from the source. -/
structure CameraSettings where
  iso : String
  aperture : String
  shutter : String
  wb : String
deriving DecidableEq, Repr

/-- `AudioSpecs` from the source. -/
structure AudioSpecs where
  sfx : List String
  musicMood : String
deriving DecidableEq, Repr

/-- `DeepAnalysisResult`: the payload of the structured-analysis call. The
runtime value comes from `JSON.parse` followed by an unchecked cast, so
every field may be absent. -/
structure DeepAnalysisResult where
  vibe : Option VibeMetadata
  techSpecs : Option TechSpecs
  cameraSettings : Option CameraSettings
  lightingDiagram : Option (List LightNode)
  audio : Option AudioSpecs
deriving DecidableEq, Repr

/-- Access-type tag of a `DirectLink`. -/
inductive LinkCategory where
  | free
  | paid
  | social
deriving DecidableEq, Repr

/-- `DirectLink` from the source. -/
structure DirectLink where
  platform : String
  url : String
  type : LinkCategory
deriving DecidableEq, Repr

/-- `FoundClip` as constructed by `searchBrollResources`: the thumbnail can
be absent at runtime when no variation image is available. -/
structure FoundClip where
  id : String
  title : String
  url : String
  domain : String
  thumbnail : Option String
deriving DecidableEq, Repr

/-- `BrollSearchResult` restricted to the fields `searchBrollResources`
produces (the remaining optional fields are `undefined` on a fresh result
and are modelled as `none`). -/
structure BrollSearchResult where
  id : String
  query : String
  summary : String
  sources : List SourceEntry
  foundClips : Option (List FoundClip)
  directLinks : List DirectLink
  generatedPreviewUrl : Option String
  generatedVideoUrl : Option String
  variations : Option (List String)
  vibe : Option VibeMetadata
  techSpecs : Option TechSpecs
  lightingDiagram : Option (List LightNode)
  cameraSettings : Option CameraSettings
  audio : Option AudioSpecs
  currentFocalLength : Option String
  referenceImage : Option String
deriving DecidableEq, Repr

/-! ## Structured analysis (getDeepAnalysis) -/

/-- Outcome of the structured-analysis backend request: either the request
throws, or it yields a response whose `text` may be absent. -/
inductive AnalysisOutcome where
  | fail (msg : String)
  | ok (text : Option String)
deriving DecidableEq, Repr

/-- `getDeepAnalysis`: the whole body is wrapped in try/catch returning
`undefined` on any failure; on a response with text it runs `JSON.parse`
(modelled by the `parse` oracle, `none` meaning the parse throws) and casts
the result unchecked. -/
def getDeepAnalysis (outcome : AnalysisOutcome)
    (parse : String → Option DeepAnalysisResult) : Option DeepAnalysisResult :=
  match outcome with
  | .fail _ => none
  | .ok none => none
  | .ok (some t) => parse t

/-! ## Image generation (generateBrollPreview, generateBrollVariations) -/

/-- `inlineData` of a response part. -/
structure InlineData where
  mimeType : Option String
  data : Option String
deriving DecidableEq, Repr

/-- One part of an image-generation response. -/
structure ResponsePart where
  inlineData : Option InlineData
deriving DecidableEq, Repr

/-- The scan of `generateBrollPreview` over the response parts: the first
part with truthy `inlineData.data` yields a data URL (mime type defaulted
to image/png by `||`). -/
def findImagePart : List ResponsePart → Option String
  | [] => none
  | p :: rest =>
    match p.inlineData with
    | none => findImagePart rest
    | some d =>
      match d.data with
      | none => findImagePart rest
      | some s =>
        if s = "" then findImagePart rest
        else some ("data:" ++ jsOrString d.mimeType ("image/png") ++ ";base64," ++ s)

/-- The lens-specific sentence appends of `generateBrollPreview` (four
independent ifs, concatenated in source order). -/
def lensSuffix (f : String) : String :=
  (if f = "16mm" then " Shot on 16mm wide-angle lens, expansive field of view, slight distortion." else "")
    ++ (if f = "35mm" then " Shot on 35mm lens, street photography style, natural field of view." else "")
    ++ (if f = "50mm" then " Shot on 50mm prime lens, human eye perspective, sharp subject." else "")
    ++ (if f = "85mm" then " Shot on 85mm portrait lens, compressed background, shallow depth of field, bokeh." else "")

/-- The text prompt built by `generateBrollPreview`. -/
def previewPrompt (description : String) (focalLength referenceImage : Option String) : String :=
  let base := "Cinematic b-roll still frame: " ++ description
    ++ ". High quality, photorealistic, 4k, professional lighting, cinematic composition."
  let withLens :=
    match focalLength with
    | some f => base ++ lensSuffix f
    | none => base
  match referenceImage with
  | some _ => withLens ++ " Match the lighting style, color palette, and composition of this reference image."
  | none => withLens

/-- An image-generation backend: for each prompt, either the request throws
or it yields a list of response parts. -/
def ImageBackend : Type := String → Except String (List ResponsePart)

/-- `generateBrollPreview`: one backend call, then the part scan; any
throw (including the no-image case) is caught and re-thrown as the fixed
user-facing message. -/
def generateBrollPreview (backend : ImageBackend) (description : String)
    (focalLength referenceImage : Option String) : Except String String :=
  match backend (previewPrompt description focalLength referenceImage) with
  | .error _ => .error ("Failed to generate preview image.")
  | .ok parts =>
    match findImagePart parts with
    | some url => .ok url
    | none => .error ("Failed to generate preview image.")

/-- The four fixed variation prompts of `generateBrollVariations`. -/
def variationPrompts (query : String) : List String :=
  ["Cinematic shot: " ++ query,
   "Close-up detail: " ++ query,
   "Wide establishing shot: " ++ query,
   "Artistic angle: " ++ query]

/-- Value-level semantics of `Promise.all` over already-settled promises:
the fulfilled values in request order, or a rejection if any member
rejects. -/
def promiseAllExcept {α : Type} : List (Except String α) → Except String (List α)
  | [] => .ok []
  | x :: xs =>
    match x with
    | .error e => .error e
    | .ok v =>
      match promiseAllExcept xs with
      | .error e => .error e
      | .ok vs => .ok (v :: vs)

/-- `generateBrollVariations`: `Promise.all` over the four preview calls,
with the catch converting any rejection into the empty list. -/
def generateBrollVariations (backend : ImageBackend) (query : String) : List String :=
  match promiseAllExcept ((variationPrompts query).map
      fun p => generateBrollPreview backend p none none) with
  | .ok results => results
  | .error _ => []

/-! ## Source extraction, deduplication and clip construction -/

/-- The `chunks.forEach` loop of `searchBrollResources`: keep the chunks
carrying a `web` entry, as title/url pairs in chunk order. -/
def extractSources (chunks : List GroundingChunk) : List SourceEntry :=
  chunks.filterMap fun c => c.web.map fun w => { title := w.title, url := w.uri }

/-- Transliteration of
`sources.filter((v, i, a) => a.findIndex(t => t.url === v.url) === i)`. -/
def dedupByUrl (l : List SourceEntry) : List SourceEntry :=
  (l.enum.filter fun iv =>
    l.findIdx? (fun t => t.url == iv.2.url) == some iv.1).map Prod.snd

/-- Specification-side rendering of first-occurrence deduplication: walk
the list keeping each entry whose url has not been seen before, in order.
Compared against the transliterated `dedupByUrl`. -/
def keepFirstSeen : List String → List SourceEntry → List SourceEntry
  | _, [] => []
  | seen, x :: xs =>
    if x.url ∈ seen then keepFirstSeen seen xs
    else x :: keepFirstSeen (seen ++ [x.url]) xs

/-- The clip construction of `searchBrollResources`, i.e.
`uniqueSources.slice(0, 4).map((source, index) => ...)` with
`new URL(source.url)` modelled by the `parseURL` oracle (`none` meaning the
constructor throws) and `crypto.randomUUID()` by the `uuid` supply.
A `none` result models the whole map throwing. -/
def buildFoundClips (parseURL : String → Option String) (uuid : Nat → String)
    (thumbs : List String) : Nat → List SourceEntry → Option (List FoundClip)
  | _, [] => some []
  | i, s :: rest =>
    match parseURL s.url with
    | none => none
    | some host =>
      match buildFoundClips parseURL uuid thumbs (i + 1) rest with
      | none => none
      | some cs =>
        some ({ id := uuid i,
                title := clipTitle s.title,
                url := s.url,
                domain := replaceFirstStr ("www.") ("") host,
                thumbnail := jsOrOpt (thumbs.get? (i % thumbs.length)) (thumbs.get? 0) } :: cs)

/-- The fixed quick-search deep links, templated from the encoded query. -/
def mkDirectLinks (query : String) : List DirectLink :=
  let q := encodeURIComponent query
  [{ platform := "Pexels", url := "https://www.pexels.com/search/videos/" ++ q ++ "/", type := .free },
   { platform := "Pixabay", url := "https://pixabay.com/videos/search/" ++ q ++ "/", type := .free },
   { platform := "YouTube", url := "https://www.youtube.com/results?search_query=" ++ q ++ "+cinematic+b-roll", type := .social },
   { platform := "Pond5", url := "https://www.pond5.com/stock-footage/" ++ q, type := .paid }]

/-! ## The single-shot aggregation (searchBrollResources) -/

/-- The backend oracles an invocation of `searchBrollResources` consumes:
the primary grounded-search outcome, the structured-analysis outcome and
its `JSON.parse` oracle, the image backend for thumbnail variations, the
`new URL(...).hostname` oracle, and the `crypto.randomUUID()` supply. -/
structure SearchBackend where
  search : Except String SearchResponse
  analysis : AnalysisOutcome
  parse : String → Option DeepAnalysisResult
  preview : ImageBackend
  parseURL : String → Option String
  uuid : Nat → String

/-- The merge step of `searchBrollResources`, consuming the joined triple
(search response, analysis data, thumbnails) exactly as the destructuring
`const [searchResponse, analysisData, thumbnails] = await Promise.all(...)`
provides it. -/
def mergeBrollResult (query : String) (referenceImage : Option String)
    (parseURL : String → Option String) (uuid : Nat → String)
    (joined : SearchResponse × Option DeepAnalysisResult × List String) :
    Except String BrollSearchResult :=
  match buildFoundClips parseURL uuid joined.2.2 0
      ((dedupByUrl (extractSources joined.1.chunks)).take 4) with
  | none => .error ("Failed to search for B-roll resources. Please try again.")
  | some clips =>
    .ok { id := uuid clips.length,
          query := query,
          summary := jsOrString joined.1.text ("No summary available."),
          sources := dedupByUrl (extractSources joined.1.chunks),
          foundClips := if clips.length > 0 then some clips else none,
          directLinks := mkDirectLinks query,
          generatedPreviewUrl := joined.2.2.get? 0,
          generatedVideoUrl := none,
          variations := none,
          vibe := joined.2.1.bind fun a => a.vibe,
          techSpecs := joined.2.1.bind fun a => a.techSpecs,
          lightingDiagram := joined.2.1.bind fun a => a.lightingDiagram,
          cameraSettings := joined.2.1.bind fun a => a.cameraSettings,
          audio := joined.2.1.bind fun a => a.audio,
          currentFocalLength := some ("50mm"),
          referenceImage := referenceImage }

/-- `searchBrollResources`: fan out the three sub-calls (the analysis and
variation sub-calls absorb their own failures), join, and merge; a
rejection of the primary search or a throw inside the merge is caught and
re-thrown as the fixed user-facing message. -/
def searchBrollResources (b : SearchBackend) (query : String)
    (referenceImage : Option String) : Except String BrollSearchResult :=
  match b.search with
  | .error _ => .error ("Failed to search for B-roll resources. Please try again.")
  | .ok resp =>
    mergeBrollResult query referenceImage b.parseURL b.uuid
      (resp, getDeepAnalysis b.analysis b.parse, generateBrollVariations b.preview query)

/-! ## Timed fan-out model (Promise.all as a join barrier) -/

/-- A settled promise: its settlement time and its fulfilled value. -/
structure TimedPromise (α : Type) where
  settleTime : Nat
  value : α

/-- `Promise.all` over three fulfilled promises: it settles when the last
input settles and carries the three values in request order, independent of
settlement order. -/
def promiseAll3 {α β γ : Type} (p₁ : TimedPromise α) (p₂ : TimedPromise β)
    (p₃ : TimedPromise γ) : TimedPromise (α × β × γ) :=
  { settleTime := max p₁.settleTime (max p₂.settleTime p₃.settleTime),
    value := (p₁.value, p₂.value, p₃.value) }

/-! ## Video generation (generateBrollVideo) -/

/-- The innermost `video` record of a generated video. -/
structure VideoFile where
  uri : Option String
deriving DecidableEq, Repr

/-- An entry of `generatedVideos`. -/
structure GeneratedVideo where
  video : Option VideoFile
deriving DecidableEq, Repr

/-- `operation.response`. -/
structure VideoResponse where
  generatedVideos : List GeneratedVideo
deriving DecidableEq, Repr

/-- A video operation handle: the completion flag and, when available, the
response carrying the media locator. -/
structure VideoOperation where
  done : Bool
  response : Option VideoResponse
deriving DecidableEq, Repr

/-- `operation.response?.generatedVideos?.[0]?.video?.uri`. -/
def operationUri (op : VideoOperation) : Option String :=
  ((op.response.bind fun r => r.generatedVideos.get? 0).bind
    fun g => g.video).bind fun v => v.uri

/-- The backend of one `generateBrollVideo` invocation: presence of the
AI-Studio bridge, the ambient API key, the initial `generateVideos`
outcome, the outcome of the k-th `getVideosOperation` status check, and the
authenticated fetch plus `URL.createObjectURL` steps. -/
structure VideoBackend where
  hasAiStudio : Bool
  apiKey : String
  initial : Except String VideoOperation
  statusChecks : Nat → Except String VideoOperation
  fetchBlob : String → String
  createObjectURL : String → String

/-- The catch block of `generateBrollVideo`: the billing-recovery message
is thrown only when the raised message contains the known substring and the
AI-Studio bridge is present; otherwise the generic message. -/
def handleVideoError (b : VideoBackend) (msg : String) : String :=
  if strContains msg ("Requested entity was not found") && b.hasAiStudio then
    "Please select a billing project and try again."
  else
    "Failed to generate motion preview."

/-- The polling loop `while (!operation.done) { sleep 5000; operation =
getVideosOperation() }`, fuelled: `none` means the loop was still running
when fuel ran out. On exit it reports the final operation, the number of
status checks performed, and the milliseconds slept. -/
def pollLoop (checks : Nat → Except String VideoOperation) :
    Nat → VideoOperation → Nat → Nat → Option (Except String (VideoOperation × Nat × Nat))
  | fuel, op, k, elapsed =>
    if op.done then some (.ok (op, k, elapsed))
    else
      match fuel with
      | 0 => none
      | fuel + 1 =>
        match checks k with
        | .error msg => some (.error msg)
        | .ok op2 => pollLoop checks fuel op2 (k + 1) (elapsed + 5000)

/-- `generateBrollVideo`: submit, poll to completion, extract the media
locator (JS-falsy locators throw), resolve it with the appended credential
through fetch and `URL.createObjectURL`; every throw is routed through the
catch block. `none` means the invocation never returned within the fuel. -/
def generateBrollVideo (b : VideoBackend) (_description : String) (fuel : Nat) :
    Option (Except String String) :=
  match b.initial with
  | .error msg => some (.error (handleVideoError b msg))
  | .ok op0 =>
    match pollLoop b.statusChecks fuel op0 0 0 with
    | none => none
    | some (.error msg) => some (.error (handleVideoError b msg))
    | some (.ok (opf, _, _)) =>
      match jsTruthy (operationUri opf) with
      | none => some (.error (handleVideoError b ("No video URI returned from Veo.")))
      | some uri => some (.ok (b.createObjectURL (b.fetchBlob (uri ++ "&key=" ++ b.apiKey))))

/-! ## Concrete scenario instances (stub backends and their results) -/

/-- A pending video operation. -/
def notDoneOp : VideoOperation := { done := false, response := none }

/-- A completed video operation carrying a media locator. -/
def doneOp : VideoOperation :=
  { done := true,
    response := some { generatedVideos := [{ video := some { uri := some ("https://video/u1") } }] } }

/-- A video backend whose status checks never report completion. -/
def vbNever : VideoBackend :=
  { hasAiStudio := false, apiKey := "KEY", initial := .ok notDoneOp,
    statusChecks := fun _ => .ok notDoneOp, fetchBlob := id, createObjectURL := id }

/-- A video backend reporting pending twice and then done. -/
def vb3 : VideoBackend :=
  { hasAiStudio := false, apiKey := "KEY", initial := .ok notDoneOp,
    statusChecks := fun k => if k < 2 then .ok notDoneOp else .ok doneOp,
    fetchBlob := id, createObjectURL := id }

/-- A video backend whose status check raises the entity-not-found message,
in an environment without the AI-Studio bridge. -/
def vbNoStudio : VideoBackend :=
  { hasAiStudio := false, apiKey := "KEY", initial := .ok notDoneOp,
    statusChecks := fun _ => .error ("Requested entity was not found"),
    fetchBlob := id, createObjectURL := id }

/-- The same failing backend with the AI-Studio bridge present. -/
def vbStudio : VideoBackend :=
  { hasAiStudio := true, apiKey := "KEY", initial := .ok notDoneOp,
    statusChecks := fun _ => .error ("Requested entity was not found"),
    fetchBlob := id, createObjectURL := id }

/-- An image backend that always returns one inline image. -/
def ibOk : ImageBackend :=
  fun _ => .ok [{ inlineData := some { mimeType := some ("image/png"), data := some ("AAAA") } }]

/-- An image backend that always rejects. -/
def ibFail : ImageBackend :=
  fun _ => .error ("quota")

/-- A search backend with a successful grounded search carrying no chunks,
a failing analysis sub-call and a failing variation sub-call. -/
def sbMini : SearchBackend :=
  { search := .ok { text := some ("found"), chunks := [] },
    analysis := .fail ("boom"),
    parse := fun _ => none,
    preview := ibFail,
    parseURL := fun _ => some ("example.com"),
    uuid := fun _ => "u" }

/-- The aggregate produced by `sbMini` on query w. -/
def rMini : BrollSearchResult :=
  { id := "u", query := "w", summary := "found", sources := [], foundClips := none,
    directLinks := mkDirectLinks ("w"), generatedPreviewUrl := none, generatedVideoUrl := none,
    variations := none, vibe := none, techSpecs := none, lightingDiagram := none,
    cameraSettings := none, audio := none, currentFocalLength := some ("50mm"),
    referenceImage := none }

/-- A search backend whose primary grounded search rejects. -/
def sbErr : SearchBackend :=
  { search := .error ("netfail"),
    analysis := .fail ("boom"),
    parse := fun _ => none,
    preview := ibFail,
    parseURL := fun _ => some ("example.com"),
    uuid := fun _ => "u" }

/-- A search backend with one grounding chunk, a failing analysis sub-call
and a failing variation sub-call (so no thumbnails are available). -/
def sbPartial : SearchBackend :=
  { search := .ok { text := some ("found"),
                    chunks := [{ web := some (WebChunk.mk ("https://example.com/v") ("Example clip")),
                                 maps := none }] },
    analysis := .fail ("boom"),
    parse := fun _ => none,
    preview := ibFail,
    parseURL := fun _ => some ("example.com"),
    uuid := fun _ => "u" }

/-- The clip produced by `sbPartial`: it carries no thumbnail. -/
def clipPartial : FoundClip :=
  { id := "u", title := "Example clip", url := "https://example.com/v",
    domain := "example.com", thumbnail := none }

/-- The aggregate produced by `sbPartial` on query city. -/
def rPartial : BrollSearchResult :=
  { id := "u", query := "city", summary := "found",
    sources := [{ title := "Example clip", url := "https://example.com/v" }],
    foundClips := some [clipPartial],
    directLinks := mkDirectLinks ("city"), generatedPreviewUrl := none,
    generatedVideoUrl := none, variations := none, vibe := none, techSpecs := none,
    lightingDiagram := none, cameraSettings := none, audio := none,
    currentFocalLength := some ("50mm"), referenceImage := none }

/-! ## Lemmas about deduplication -/

theorem keepFirstSeen_congr (s₁ s₂ : List String) (h : ∀ u, u ∈ s₁ ↔ u ∈ s₂) :
    ∀ xs, keepFirstSeen s₁ xs = keepFirstSeen s₂ xs := by
  intro xs
  induction xs generalizing s₁ s₂ with
  | nil => rfl
  | cons x rest ih =>
    simp only [keepFirstSeen]
    by_cases hx : x.url ∈ s₁
    · rw [if_pos hx, if_pos ((h x.url).mp hx)]
      exact ih s₁ s₂ h
    · rw [if_neg hx, if_neg (fun c => hx ((h x.url).mpr c))]
      congr 1
      refine ih _ _ (fun u => ?_)
      simp only [List.mem_append, List.mem_singleton]
      exact or_congr_left (h u)

theorem dedup_general (xs pre : List SourceEntry) :
    ((List.enumFrom pre.length xs).filter fun iv =>
        (pre ++ xs).findIdx? (fun t => t.url == iv.2.url) == some iv.1).map Prod.snd
      = keepFirstSeen (pre.map (fun s => s.url)) xs := by
  induction xs generalizing pre with
  | nil => simp [keepFirstSeen]
  | cons x rest ih =>
    have hlen : (pre ++ [x]).length = pre.length + 1 := by simp
    have hmap : (pre ++ [x]).map (fun s => s.url) = pre.map (fun s => s.url) ++ [x.url] := by simp
    have h2 := ih (pre ++ [x])
    rw [hlen, hmap, List.append_assoc, List.singleton_append] at h2
    rw [List.enumFrom_cons, List.filter_cons]
    by_cases hx : x.url ∈ pre.map (fun s => s.url)
    · have hdrop : ((pre ++ x :: rest).findIdx? (fun t => t.url == x.url) == some pre.length) = false := by
        obtain ⟨y, hy, hyurl⟩ := List.mem_map.mp hx
        have hsome : (pre.findIdx? (fun t => t.url == x.url)).isSome := by
          rw [List.findIdx?_isSome]
          exact List.any_eq_true.mpr ⟨y, hy, by simp [hyurl]⟩
        obtain ⟨i, hi⟩ := Option.isSome_iff_exists.mp hsome
        have hilt : i < pre.length := (List.findIdx?_eq_some_iff_getElem.mp hi).1
        rw [List.findIdx?_append, hi]
        have hor : (some i).or (((x :: rest).findIdx? (fun t => t.url == x.url)).map
            fun j => j + pre.length) = some i := rfl
        rw [hor]
        simp only [beq_eq_false_iff_ne, ne_eq, Option.some.injEq]
        exact Nat.ne_of_lt hilt
      rw [hdrop]
      simp only [Bool.false_eq_true, if_false]
      rw [keepFirstSeen, if_pos hx, h2]
      refine keepFirstSeen_congr _ _ (fun u => ?_) rest
      simp only [List.mem_append, List.mem_singleton]
      constructor
      · rintro (hu | hu)
        · exact hu
        · rw [hu]; exact hx
      · exact Or.inl
    · have hkeep : ((pre ++ x :: rest).findIdx? (fun t => t.url == x.url) == some pre.length) = true := by
        have hnone : pre.findIdx? (fun t => t.url == x.url) = none := by
          rw [List.findIdx?_eq_none_iff]
          intro z hz
          simp only [beq_eq_false_iff_ne, ne_eq]
          intro hc
          exact hx (List.mem_map.mpr ⟨z, hz, hc⟩)
        rw [List.findIdx?_append, hnone]
        have hfirst : (x :: rest).findIdx? (fun t => t.url == x.url) = some 0 := by
          simp [List.findIdx?_cons]
        rw [hfirst]
        simp
      rw [hkeep]
      simp only [if_true]
      rw [keepFirstSeen, if_neg hx, List.map_cons, h2]

theorem dedupByUrl_eq_keepFirstSeen (l : List SourceEntry) :
    dedupByUrl l = keepFirstSeen [] l := by
  have h := dedup_general l []
  simpa [dedupByUrl, List.enum] using h

theorem keepFirstSeen_not_seen (seen : List String) (xs : List SourceEntry) :
    ∀ v ∈ keepFirstSeen seen xs, v.url ∉ seen := by
  induction xs generalizing seen with
  | nil => intro v hv; simp [keepFirstSeen] at hv
  | cons x rest ih =>
    intro v hv
    rw [keepFirstSeen] at hv
    by_cases hx : x.url ∈ seen
    · rw [if_pos hx] at hv
      exact ih seen v hv
    · rw [if_neg hx] at hv
      rcases List.mem_cons.mp hv with hvx | hv2
      · rw [hvx]; exact hx
      · intro hc
        exact ih (seen ++ [x.url]) v hv2 (List.mem_append_left _ hc)

theorem keepFirstSeen_pairwise (seen : List String) (xs : List SourceEntry) :
    List.Pairwise (fun a b => a.url ≠ b.url) (keepFirstSeen seen xs) := by
  induction xs generalizing seen with
  | nil => simp [keepFirstSeen]
  | cons x rest ih =>
    rw [keepFirstSeen]
    by_cases hx : x.url ∈ seen
    · rw [if_pos hx]; exact ih seen
    · rw [if_neg hx]
      refine List.Pairwise.cons (fun b hb => ?_) (ih _)
      have hns := keepFirstSeen_not_seen (seen ++ [x.url]) rest b hb
      intro hc
      exact hns (List.mem_append_right _ (by simp [hc]))

theorem dedupByUrl_pairwise (l : List SourceEntry) :
    List.Pairwise (fun a b => a.url ≠ b.url) (dedupByUrl l) := by
  rw [dedupByUrl_eq_keepFirstSeen]
  exact keepFirstSeen_pairwise [] l

/-! ## Lemmas about clip construction -/

theorem buildFoundClips_some (parseURL : String → Option String) (uuid : Nat → String)
    (thumbs : List String) :
    ∀ (srcs : List SourceEntry) (i : Nat) (cs : List FoundClip),
      buildFoundClips parseURL uuid thumbs i srcs = some cs →
      cs.map FoundClip.url = srcs.map SourceEntry.url
      ∧ cs.length = srcs.length
      ∧ ∀ j (hj : j < cs.length),
          (cs.get ⟨j, hj⟩).thumbnail
            = jsOrOpt (thumbs.get? ((i + j) % thumbs.length)) (thumbs.get? 0) := by
  intro srcs
  induction srcs with
  | nil =>
    intro i cs h
    rw [buildFoundClips] at h
    cases h
    refine ⟨rfl, rfl, ?_⟩
    intro j hj
    exact absurd hj (by simp)
  | cons s rest ih =>
    intro i cs h
    rw [buildFoundClips] at h
    cases hp : parseURL s.url with
    | none => rw [hp] at h; cases h
    | some host =>
      rw [hp] at h
      cases hrec : buildFoundClips parseURL uuid thumbs (i + 1) rest with
      | none => rw [hrec] at h; cases h
      | some cs2 =>
        rw [hrec] at h
        cases h
        obtain ⟨hurl, hlen, hthumb⟩ := ih (i + 1) cs2 hrec
        refine ⟨by simp [hurl], by simp [hlen], ?_⟩
        intro j hj
        cases j with
        | zero => simp
        | succ j0 =>
          have hj0 : j0 < cs2.length := by
            simpa using Nat.lt_of_succ_lt_succ hj
          have := hthumb j0 hj0
          simpa [Nat.add_assoc, Nat.add_comm 1 j0] using this

/-! ## Inversion of a successful aggregation -/

theorem searchBroll_ok_inv (b : SearchBackend) (q : String) (ref : Option String)
    (resp : SearchResponse) (r : BrollSearchResult)
    (hs : b.search = .ok resp)
    (h : searchBrollResources b q ref = .ok r) :
    ∃ clips,
      buildFoundClips b.parseURL b.uuid (generateBrollVariations b.preview q) 0
          ((dedupByUrl (extractSources resp.chunks)).take 4) = some clips
      ∧ r = { id := b.uuid clips.length,
              query := q,
              summary := jsOrString resp.text ("No summary available."),
              sources := dedupByUrl (extractSources resp.chunks),
              foundClips := if clips.length > 0 then some clips else none,
              directLinks := mkDirectLinks q,
              generatedPreviewUrl := (generateBrollVariations b.preview q).get? 0,
              generatedVideoUrl := none,
              variations := none,
              vibe := (getDeepAnalysis b.analysis b.parse).bind fun a => a.vibe,
              techSpecs := (getDeepAnalysis b.analysis b.parse).bind fun a => a.techSpecs,
              lightingDiagram := (getDeepAnalysis b.analysis b.parse).bind fun a => a.lightingDiagram,
              cameraSettings := (getDeepAnalysis b.analysis b.parse).bind fun a => a.cameraSettings,
              audio := (getDeepAnalysis b.analysis b.parse).bind fun a => a.audio,
              currentFocalLength := some ("50mm"),
              referenceImage := ref } := by
  simp only [searchBrollResources, hs] at h
  simp only [mergeBrollResult] at h
  cases hb : buildFoundClips b.parseURL b.uuid (generateBrollVariations b.preview q) 0
      ((dedupByUrl (extractSources resp.chunks)).take 4) with
  | none =>
    rw [hb] at h
    cases h
  | some clips =>
    rw [hb] at h
    simp only [Except.ok.injEq] at h
    exact ⟨clips, rfl, h.symm⟩

/-! ## Lemmas about the polling loop -/

theorem pollLoop_done (checks : Nat → Except String VideoOperation) (fuel : Nat)
    (op : VideoOperation) (k e : Nat) (h : op.done = true) :
    pollLoop checks fuel op k e = some (.ok (op, k, e)) := by
  rw [pollLoop.eq_def]
  simp [h]

theorem pollLoop_step (checks : Nat → Except String VideoOperation) (fuel : Nat)
    (op : VideoOperation) (k e : Nat) (op2 : VideoOperation)
    (h : op.done = false) (hc : checks k = .ok op2) :
    pollLoop checks (fuel + 1) op k e = pollLoop checks fuel op2 (k + 1) (e + 5000) := by
  rw [pollLoop.eq_def]
  simp [h, hc]

theorem pollLoop_step_err (checks : Nat → Except String VideoOperation) (fuel : Nat)
    (op : VideoOperation) (k e : Nat) (msg : String)
    (h : op.done = false) (hc : checks k = .error msg) :
    pollLoop checks (fuel + 1) op k e = some (.error msg) := by
  rw [pollLoop.eq_def]
  simp [h, hc]

theorem pollLoop_zero (checks : Nat → Except String VideoOperation)
    (op : VideoOperation) (k e : Nat) (h : op.done = false) :
    pollLoop checks 0 op k e = none := by
  rw [pollLoop.eq_def]
  simp [h]

theorem pollLoop_never (checks : Nat → Except String VideoOperation)
    (f : Nat → VideoOperation)
    (hch : ∀ k, checks k = .ok (f k)) (hnd : ∀ k, (f k).done = false) :
    ∀ fuel op k e, op.done = false → pollLoop checks fuel op k e = none := by
  intro fuel
  induction fuel with
  | zero => intro op k e h; exact pollLoop_zero checks op k e h
  | succ n ih =>
    intro op k e h
    rw [pollLoop_step checks n op k e (f k) h (hch k)]
    exact ih (f k) (k + 1) (e + 5000) (hnd k)

/-- Claim C5: with an initial pending operation and a backend reporting
pending, pending, done, the poller performs exactly three status checks
(sleeping 5000 ms before each) and the call returns the completed
operation's media locator resolved through the authenticated fetch and
`URL.createObjectURL`, for every sufficient fuel bound. -/
theorem generateBrollVideo_three_checks (b : VideoBackend) (d : String)
    (op0 op1 op2 op3 : VideoOperation) (uri : String)
    (hinit : b.initial = .ok op0) (h0 : op0.done = false)
    (hc0 : b.statusChecks 0 = .ok op1) (h1 : op1.done = false)
    (hc1 : b.statusChecks 1 = .ok op2) (h2 : op2.done = false)
    (hc2 : b.statusChecks 2 = .ok op3) (h3 : op3.done = true)
    (huri : operationUri op3 = some uri) (hne : uri ≠ "")
    (fuel : Nat) (hfuel : 3 ≤ fuel) :
    pollLoop b.statusChecks fuel op0 0 0 = some (.ok (op3, 3, 15000))
    ∧ generateBrollVideo b d fuel
        = some (.ok (b.createObjectURL (b.fetchBlob (uri ++ "&key=" ++ b.apiKey)))) := by
  obtain ⟨m, rfl⟩ := Nat.exists_eq_add_of_le hfuel
  rw [Nat.add_comm 3 m]
  have s1 : pollLoop b.statusChecks (m + 3) op0 0 0
      = pollLoop b.statusChecks (m + 2) op1 1 5000 := by
    simpa using pollLoop_step b.statusChecks (m + 2) op0 0 0 op1 h0 hc0
  have s2 : pollLoop b.statusChecks (m + 2) op1 1 5000
      = pollLoop b.statusChecks (m + 1) op2 2 10000 := by
    simpa using pollLoop_step b.statusChecks (m + 1) op1 1 5000 op2 h1 hc1
  have s3 : pollLoop b.statusChecks (m + 1) op2 2 10000
      = pollLoop b.statusChecks m op3 3 15000 := by
    simpa using pollLoop_step b.statusChecks m op2 2 10000 op3 h2 hc2
  have s4 : pollLoop b.statusChecks m op3 3 15000 = some (.ok (op3, 3, 15000)) :=
    pollLoop_done b.statusChecks m op3 3 15000 h3
  have hpoll : pollLoop b.statusChecks (m + 3) op0 0 0 = some (.ok (op3, 3, 15000)) :=
    (s1.trans s2).trans (s3.trans s4)
  refine ⟨hpoll, ?_⟩
  simp only [generateBrollVideo, hinit, hpoll]
  simp [jsTruthy, huri, hne]

/-- Witness for C5: the stub backend `vb3` reports pending twice and then
done; three checks happen and the resolved object URL is returned. -/
theorem generateBrollVideo_three_checks_witness :
    pollLoop vb3.statusChecks 3 notDoneOp 0 0 = some (.ok (doneOp, 3, 15000))
    ∧ generateBrollVideo vb3 ("city") 3
        = some (.ok (vb3.createObjectURL (vb3.fetchBlob ("https://video/u1" ++ "&key=" ++ vb3.apiKey)))) :=
  generateBrollVideo_three_checks vb3 ("city") notDoneOp notDoneOp notDoneOp doneOp
    ("https://video/u1") rfl rfl rfl rfl rfl rfl rfl rfl rfl (by decide) 3 (by decide)

/-- Claim C6: against a backend whose status checks never report done (and
never throw), the call never returns for any fuel bound, and each loop
cycle re-issues exactly one status check after a fixed 5000 ms sleep. -/
theorem generateBrollVideo_no_timeout (b : VideoBackend) (d : String)
    (f : Nat → VideoOperation) (op0 : VideoOperation)
    (hch : ∀ k, b.statusChecks k = .ok (f k))
    (hnd : ∀ k, (f k).done = false)
    (hinit : b.initial = .ok op0) (h0 : op0.done = false) :
    (∀ fuel, generateBrollVideo b d fuel = none)
    ∧ (∀ fuel op k e, op.done = false →
        pollLoop b.statusChecks (fuel + 1) op k e
          = pollLoop b.statusChecks fuel (f k) (k + 1) (e + 5000)) := by
  constructor
  · intro fuel
    have hpoll := pollLoop_never b.statusChecks f hch hnd fuel op0 0 0 h0
    simp only [generateBrollVideo, hinit, hpoll]
  · intro fuel op k e h
    exact pollLoop_step b.statusChecks fuel op k e (f k) h (hch k)

/-- Witness for C6: the never-done stub backend makes the call spin out any
concrete fuel bound. -/
theorem generateBrollVideo_no_timeout_witness :
    generateBrollVideo vbNever ("city") 7 = none :=
  (generateBrollVideo_no_timeout vbNever ("city") (fun _ => notDoneOp) notDoneOp
    (fun _ => rfl) (fun _ => rfl) rfl rfl).1 7

/-- Claim C7 (amended): when the AI-Studio bridge is present and the status
check raises an error whose message contains the entity-not-found
substring, the call surfaces the billing-recovery message. -/
theorem generateBrollVideo_billing_recovery (b : VideoBackend) (d : String)
    (op0 : VideoOperation) (msg : String) (fuel : Nat)
    (hstudio : b.hasAiStudio = true)
    (hinit : b.initial = .ok op0) (h0 : op0.done = false)
    (hc : b.statusChecks 0 = .error msg)
    (hsub : strContains msg ("Requested entity was not found") = true) :
    generateBrollVideo b d (fuel + 1)
      = some (.error ("Please select a billing project and try again.")) := by
  have hpoll := pollLoop_step_err b.statusChecks fuel op0 0 0 msg h0 hc
  simp only [generateBrollVideo, hinit, hpoll]
  simp [handleVideoError, hsub, hstudio]

/-- Witness for the amended C7: with the bridge present the recovery
message is surfaced. -/
theorem generateBrollVideo_billing_recovery_witness :
    generateBrollVideo vbStudio ("city") 1
      = some (.error ("Please select a billing project and try again.")) :=
  generateBrollVideo_billing_recovery vbStudio ("city") notDoneOp
    ("Requested entity was not found") 0 rfl rfl rfl rfl (by decide)

/-- Counterexample to C7 as stated: without the AI-Studio bridge, an error
containing the entity-not-found substring still surfaces the generic
message, not the recovery message. -/
theorem generateBrollVideo_billing_counterexample :
    strContains ("Requested entity was not found") ("Requested entity was not found") = true
    ∧ generateBrollVideo vbNoStudio ("city") 1
        = some (.error ("Failed to generate motion preview."))
    ∧ generateBrollVideo vbNoStudio ("city") 1
        ≠ some (.error ("Please select a billing project and try again.")) := by
  refine ⟨by decide, rfl, ?_⟩
  intro h
  have hred : generateBrollVideo vbNoStudio ("city") 1
      = some (.error ("Failed to generate motion preview.")) := rfl
  rw [hred] at h
  exact absurd (Except.error.inj (Option.some.inj h)) (by decide)

/-! ## Lemmas and claims about variation generation -/

theorem promiseAllExcept_error {α : Type} (l : List (Except String α)) (e : String)
    (hl : (Except.error e : Except String α) ∈ l) :
    ∃ e2, promiseAllExcept l = .error e2 := by
  induction l with
  | nil => cases hl
  | cons x xs ih =>
    rcases List.mem_cons.mp hl with hx | hmem
    · exact ⟨e, by rw [← hx]; rfl⟩
    · cases x with
      | error e3 => exact ⟨e3, rfl⟩
      | ok v =>
        obtain ⟨e2, he2⟩ := ih hmem
        refine ⟨e2, ?_⟩
        show (match promiseAllExcept xs with
          | .error e3 => Except.error e3
          | .ok vs => Except.ok (v :: vs)) = Except.error e2
        rw [he2]

/-- Claim C10: the variation generator issues exactly the four fixed prompt
variants; when all four preview calls succeed it returns their images in
request order, and when any one fails it returns the empty list (never
throwing and discarding any successes). -/
theorem generateBrollVariations_all_or_nothing (backend : ImageBackend) (q : String) :
    variationPrompts q = ["Cinematic shot: " ++ q, "Close-up detail: " ++ q,
        "Wide establishing shot: " ++ q, "Artistic angle: " ++ q]
    ∧ (∀ i1 i2 i3 i4,
        generateBrollPreview backend ("Cinematic shot: " ++ q) none none = .ok i1 →
        generateBrollPreview backend ("Close-up detail: " ++ q) none none = .ok i2 →
        generateBrollPreview backend ("Wide establishing shot: " ++ q) none none = .ok i3 →
        generateBrollPreview backend ("Artistic angle: " ++ q) none none = .ok i4 →
        generateBrollVariations backend q = [i1, i2, i3, i4])
    ∧ (∀ p e, p ∈ variationPrompts q →
        generateBrollPreview backend p none none = .error e →
        generateBrollVariations backend q = []) := by
  refine ⟨rfl, ?_, ?_⟩
  · intro i1 i2 i3 i4 h1 h2 h3 h4
    simp [generateBrollVariations, variationPrompts, promiseAllExcept, h1, h2, h3, h4]
  · intro p e hp he
    have hmem : (Except.error e : Except String String)
        ∈ (variationPrompts q).map (fun p2 => generateBrollPreview backend p2 none none) := by
      rw [← he]
      exact List.mem_map_of_mem _ hp
    obtain ⟨e2, he2⟩ := promiseAllExcept_error _ e hmem
    simp [generateBrollVariations, he2]

/-- Witness for C10: an all-succeeding backend yields the four images in
order, and an all-failing backend yields the empty list. -/
theorem generateBrollVariations_all_or_nothing_witness :
    generateBrollVariations ibOk ("city")
      = ["data:image/png;base64,AAAA", "data:image/png;base64,AAAA",
         "data:image/png;base64,AAAA", "data:image/png;base64,AAAA"]
    ∧ generateBrollVariations ibFail ("city") = [] :=
  ⟨(generateBrollVariations_all_or_nothing ibOk ("city")).2.1 _ _ _ _ rfl rfl rfl rfl,
   (generateBrollVariations_all_or_nothing ibFail ("city")).2.2
     ("Cinematic shot: " ++ "city") ("Failed to generate preview image.")
     (by simp [variationPrompts]) rfl⟩

/-! ## Claims about the single-shot aggregation -/

theorem buildFoundClips_total (parseURL : String → Option String) (uuid : Nat → String)
    (thumbs : List String) (h : ∀ u, parseURL u ≠ none) :
    ∀ (srcs : List SourceEntry) (i : Nat),
      ∃ cs, buildFoundClips parseURL uuid thumbs i srcs = some cs := by
  intro srcs
  induction srcs with
  | nil => intro i; exact ⟨[], rfl⟩
  | cons s rest ih =>
    intro i
    obtain ⟨cs, hcs⟩ := ih (i + 1)
    cases hu : parseURL s.url with
    | none => exact absurd hu (h s.url)
    | some host => exact ⟨_, by rw [buildFoundClips, hu, hcs]⟩

/-- Claim C1: on every successful aggregation the sources list is the
first-occurrence URL-deduplication of the extracted grounding chunks (in
chunk order), and neither the sources list nor the foundClips list contains
two entries with the same URL. -/
theorem searchBroll_dedup (b : SearchBackend) (q : String) (ref : Option String)
    (resp : SearchResponse) (r : BrollSearchResult)
    (hs : b.search = .ok resp) (h : searchBrollResources b q ref = .ok r) :
    r.sources = keepFirstSeen [] (extractSources resp.chunks)
    ∧ List.Pairwise (fun a b => a.url ≠ b.url) r.sources
    ∧ ∀ cs, r.foundClips = some cs → List.Pairwise (fun a b => a.url ≠ b.url) cs := by
  obtain ⟨clips, hb, hr⟩ := searchBroll_ok_inv b q ref resp r hs h
  subst hr
  refine ⟨dedupByUrl_eq_keepFirstSeen _, dedupByUrl_pairwise _, ?_⟩
  intro cs hcs
  have hcs2 : (if clips.length > 0 then some clips else none) = some cs := hcs
  by_cases hlen : clips.length > 0
  · rw [if_pos hlen] at hcs2
    injection hcs2 with hcc
    subst hcc
    obtain ⟨hurl, _, _⟩ := buildFoundClips_some b.parseURL b.uuid _ _ 0 clips hb
    have hpw : List.Pairwise (fun a b : String => a ≠ b) (clips.map FoundClip.url) := by
      rw [hurl]
      have h1 : List.Pairwise (fun a b : SourceEntry => a.url ≠ b.url)
          ((dedupByUrl (extractSources resp.chunks)).take 4) :=
        List.Pairwise.sublist (List.take_sublist _ _) (dedupByUrl_pairwise _)
      exact List.pairwise_map.mpr h1
    exact List.pairwise_map.mp hpw
  · rw [if_neg hlen] at hcs2
    cases hcs2

/-- Witness for C1: the empty-chunk scenario. -/
theorem searchBroll_dedup_witness :
    rMini.sources = keepFirstSeen [] (extractSources [])
    ∧ List.Pairwise (fun a b => a.url ≠ b.url) rMini.sources := by
  have h := searchBroll_dedup sbMini ("w") none
    { text := some ("found"), chunks := [] } rMini rfl rfl
  exact ⟨h.1, h.2.1⟩

/-- Claim C2: if the structured-analysis sub-call fails, yields no text, or
yields text that does not parse, all five structured fields are absent
together; if it parses, the five sub-fields are copied through as given. -/
theorem searchBroll_analysis_atomic (b : SearchBackend) (q : String) (ref : Option String)
    (resp : SearchResponse) (r : BrollSearchResult)
    (hs : b.search = .ok resp) (h : searchBrollResources b q ref = .ok r) :
    ((∃ e, b.analysis = .fail e) ∨ b.analysis = .ok none
        ∨ (∃ t, b.analysis = .ok (some t) ∧ b.parse t = none) →
      r.vibe = none ∧ r.techSpecs = none ∧ r.cameraSettings = none
        ∧ r.lightingDiagram = none ∧ r.audio = none)
    ∧ (∀ t a, b.analysis = .ok (some t) → b.parse t = some a →
      r.vibe = a.vibe ∧ r.techSpecs = a.techSpecs ∧ r.cameraSettings = a.cameraSettings
        ∧ r.lightingDiagram = a.lightingDiagram ∧ r.audio = a.audio) := by
  obtain ⟨clips, hb, hr⟩ := searchBroll_ok_inv b q ref resp r hs h
  subst hr
  constructor
  · intro hcase
    have hga : getDeepAnalysis b.analysis b.parse = none := by
      rcases hcase with ⟨e, he⟩ | he | ⟨t, ht, hp⟩
      · rw [he]
        rfl
      · rw [he]
        rfl
      · rw [ht]
        exact hp
    refine ⟨?_, ?_, ?_, ?_, ?_⟩ <;> simp [hga]
  · intro t a ht hp
    have hga : getDeepAnalysis b.analysis b.parse = some a := by
      rw [ht]
      exact hp
    refine ⟨?_, ?_, ?_, ?_, ?_⟩ <;> simp [hga]

/-- Witness for C2: a failing analysis sub-call leaves all five fields
absent. -/
theorem searchBroll_analysis_atomic_witness :
    rMini.vibe = none ∧ rMini.techSpecs = none ∧ rMini.cameraSettings = none
    ∧ rMini.lightingDiagram = none ∧ rMini.audio = none :=
  (searchBroll_analysis_atomic sbMini ("w") none
    { text := some ("found"), chunks := [] } rMini rfl rfl).1 (Or.inl ⟨"boom", rfl⟩)

/-- Claim C3: with a failing structured-analysis sub-call and a failing
thumbnail sub-call the aggregation still succeeds (their contributions are
absent), while a failing primary grounded search aborts with the fixed
user-facing message. -/
theorem searchBroll_degradation (b : SearchBackend) (q : String) (ref : Option String)
    (e₁ e₂ : String)
    (ha : b.analysis = .fail e₁)
    (hp : ∀ p, b.preview p = .error e₂) :
    (∀ resp, b.search = .ok resp → (∀ u, b.parseURL u ≠ none) →
      (searchBrollResources b q ref).toOption.map
          (fun r => (r.vibe, r.techSpecs, r.cameraSettings, r.lightingDiagram,
                     r.audio, r.generatedPreviewUrl))
        = some (none, none, none, none, none, none))
    ∧ (∀ e, b.search = .error e →
        searchBrollResources b q ref
          = .error ("Failed to search for B-roll resources. Please try again.")) := by
  constructor
  · intro resp hsr hpu
    have hga : getDeepAnalysis b.analysis b.parse = none := by
      rw [ha]
      rfl
    have hthumbs : generateBrollVariations b.preview q = [] := by
      simp [generateBrollVariations, variationPrompts, generateBrollPreview, hp,
        promiseAllExcept]
    obtain ⟨clips, hclips⟩ := buildFoundClips_total b.parseURL b.uuid [] hpu
      ((dedupByUrl (extractSources resp.chunks)).take 4) 0
    simp only [searchBrollResources, hsr, mergeBrollResult, hthumbs, hga]
    rw [hclips]
    rfl
  · intro e he
    simp only [searchBrollResources, he]

/-- Witness for C3: a failing primary grounded search surfaces the fixed
message. -/
theorem searchBroll_degradation_witness :
    searchBrollResources sbErr ("city") none
      = .error ("Failed to search for B-roll resources. Please try again.") :=
  (searchBroll_degradation sbErr ("city") none ("boom") ("quota") rfl (fun _ => rfl)).2
    ("netfail") rfl

/-- Claim C4 (amended): foundClips zips the first four deduplicated sources
with the variation images; when at least one (non-empty) image is
available, clip i receives image i mod imageCount, so images repeat when
clips outnumber images; when the variation list is empty (generation
failed) every foundClip thumbnail is absent. -/
theorem searchBroll_thumbnail_assignment (b : SearchBackend) (q : String) (ref : Option String)
    (resp : SearchResponse) (r : BrollSearchResult)
    (hs : b.search = .ok resp) (h : searchBrollResources b q ref = .ok r)
    (cs : List FoundClip) (hcs : r.foundClips = some cs) :
    cs.map FoundClip.url
      = ((dedupByUrl (extractSources resp.chunks)).take 4).map SourceEntry.url
    ∧ ∀ i (hi : i < cs.length),
        (generateBrollVariations b.preview q = [] → (cs.get ⟨i, hi⟩).thumbnail = none)
        ∧ (generateBrollVariations b.preview q ≠ [] →
            (∀ s ∈ generateBrollVariations b.preview q, s ≠ "") →
            (cs.get ⟨i, hi⟩).thumbnail
              = (generateBrollVariations b.preview q).get?
                  (i % (generateBrollVariations b.preview q).length)) := by
  obtain ⟨clips, hb, hr⟩ := searchBroll_ok_inv b q ref resp r hs h
  subst hr
  have hcs2 : (if clips.length > 0 then some clips else none) = some cs := hcs
  by_cases hlen : clips.length > 0
  · rw [if_pos hlen] at hcs2
    injection hcs2 with hcc
    subst hcc
    obtain ⟨hurl, hlen2, hthumb⟩ := buildFoundClips_some b.parseURL b.uuid _ _ 0 clips hb
    refine ⟨hurl, ?_⟩
    intro i hi
    have ht := hthumb i hi
    simp only [Nat.zero_add] at ht
    constructor
    · intro hemp
      rw [hemp] at ht
      simpa [jsOrOpt] using ht
    · intro hne hall
      rw [ht]
      have hlenpos : 0 < (generateBrollVariations b.preview q).length :=
        List.length_pos.mpr hne
      have hmod : i % (generateBrollVariations b.preview q).length
          < (generateBrollVariations b.preview q).length := Nat.mod_lt _ hlenpos
      have hget : (generateBrollVariations b.preview q).get?
            (i % (generateBrollVariations b.preview q).length)
          = some ((generateBrollVariations b.preview q).get
              ⟨i % (generateBrollVariations b.preview q).length, hmod⟩) :=
        List.get?_eq_get hmod
      rw [hget]
      have hmem := List.get_mem (generateBrollVariations b.preview q)
        (i % (generateBrollVariations b.preview q).length) hmod
      have hnz := hall _ hmem
      simp only [List.get_eq_getElem] at hnz
      simp [jsOrOpt, hnz]
  · rw [if_neg hlen] at hcs2
    cases hcs2

/-- Witness for the amended C4: the one-chunk, zero-thumbnail scenario. -/
theorem searchBroll_thumbnail_assignment_witness :
    ([clipPartial].map FoundClip.url)
      = ((dedupByUrl (extractSources
            [{ web := some (WebChunk.mk ("https://example.com/v") ("Example clip")),
               maps := none }])).take 4).map SourceEntry.url
    ∧ (([clipPartial] : List FoundClip).get ⟨0, Nat.one_pos⟩).thumbnail = none := by
  have h := searchBroll_thumbnail_assignment sbPartial ("city") none
    { text := some ("found"),
      chunks := [{ web := some (WebChunk.mk ("https://example.com/v") ("Example clip")),
                   maps := none }] }
    rPartial rfl rfl [clipPartial] rfl
  exact ⟨h.1, (h.2 0 Nat.one_pos).1 rfl⟩

/-- Counterexample to C4 as stated: a successful aggregation in which the
variation sub-call failed produces a foundClip with no thumbnail, so a
foundClip can be left thumbnail-less. -/
theorem searchBroll_thumbnail_counterexample :
    searchBrollResources sbPartial ("city") none = .ok rPartial
    ∧ rPartial.foundClips = some [clipPartial]
    ∧ clipPartial.thumbnail = none :=
  ⟨rfl, rfl, rfl⟩

/-- Claim C8: on every successful aggregation the summary equals the
grounded-search text when that text is present and non-empty, and the
fixed fallback string otherwise; it is always a present string. -/
theorem searchBroll_summary (b : SearchBackend) (q : String) (ref : Option String)
    (resp : SearchResponse) (r : BrollSearchResult)
    (hs : b.search = .ok resp) (h : searchBrollResources b q ref = .ok r) :
    (∀ t, resp.text = some t → t ≠ "" → r.summary = t)
    ∧ ((resp.text = none ∨ resp.text = some "") → r.summary = "No summary available.") := by
  obtain ⟨clips, hb, hr⟩ := searchBroll_ok_inv b q ref resp r hs h
  subst hr
  constructor
  · intro t ht hne
    simp [jsOrString, ht, hne]
  · rintro (ht | ht) <;> simp [jsOrString, ht]

/-- Witness for C8: a present non-empty text is copied verbatim. -/
theorem searchBroll_summary_witness : rMini.summary = "found" :=
  (searchBroll_summary sbMini ("w") none
    { text := some ("found"), chunks := [] } rMini rfl rfl).1 ("found") rfl (by decide)

/-- Claim C9: the fan-out is a join barrier: the joined triple carries each
sub-call result in the slot of its request order regardless of settlement
times, the join settles no earlier than every sub-call, and the merge of
`searchBrollResources` consumes exactly that joined triple. -/
theorem searchBroll_fanout_barrier (s : TimedPromise (Except String SearchResponse))
    (a : TimedPromise (Option DeepAnalysisResult)) (t : TimedPromise (List String))
    (b : SearchBackend) (q : String) (ref : Option String)
    (ta tb tc : Nat) (resp : SearchResponse) :
    (promiseAll3 s a t).value = (s.value, a.value, t.value)
    ∧ s.settleTime ≤ (promiseAll3 s a t).settleTime
    ∧ a.settleTime ≤ (promiseAll3 s a t).settleTime
    ∧ t.settleTime ≤ (promiseAll3 s a t).settleTime
    ∧ searchBrollResources { b with search := .ok resp } q ref
        = mergeBrollResult q ref b.parseURL b.uuid
            (promiseAll3 (TimedPromise.mk ta resp)
              (TimedPromise.mk tb (getDeepAnalysis b.analysis b.parse))
              (TimedPromise.mk tc (generateBrollVariations b.preview q))).value :=
  ⟨rfl, le_max_left _ _,
   le_trans (le_max_left _ _) (le_max_right _ _),
   le_trans (le_max_right _ _) (le_max_right _ _),
   rfl⟩
